import Mathlib

/-!
Shallow embedding of the PeaceMaker browser client (JavaScript) in Lean 4,
together with theorems checking the natural-language specification against
the code.  The embedded services are:

* `WebSocketService`  (src/unnamed/part_000, second class): connection state,
  exponential-backoff reconnection, and the outbound message envelope.
* `VideoService`      (src/unnamed/part_000, first class): mutable settings
  with the quality clamp.
* `AudioService`      (src/ui/src/services/audioService.js): mutable settings
  and the RMS voice-activity gate.
* The React `App` components: the optimistic mute toggle
  (src/ui/src/App.js) and the notification list (src/unnamed/part_003).

JavaScript numbers are modelled as `ℚ` (the claims only exercise exact
values), JavaScript string values and `null` as the small `JValue` type, and
JavaScript objects used as message envelopes as association lists
`List (String × JValue)` in key order.
-/

/-- A JavaScript value as it appears in the message envelopes of this client:
a string or `null`. -/
inductive JValue where
  | str (s : String)
  | jnull
deriving DecidableEq, Repr

/-- JavaScript object update `obj[key] = v` as performed by the spread
`\x7b...message, timestamp: ts, session_id: sid\x7d` in
`WebSocketService.send`: an existing key keeps its position and gets the new
value, a fresh key is appended at the end. -/
def setField (obj : List (String × JValue)) (key : String) (v : JValue) :
    List (String × JValue) :=
  if obj.any (fun p => decide (p.1 = key)) then
    obj.map (fun p => if p.1 = key then (key, v) else p)
  else
    obj ++ [(key, v)]

namespace WebSocketService

/-- The four readyState values of a browser WebSocket. -/
inductive ReadyState where
  | connecting
  | opened
  | closing
  | closed
deriving DecidableEq, Repr

/-- The mutable fields of the `WebSocketService` class that the claims
depend on.  `ws = none` models `this.ws === null`; otherwise `ws` carries the
readyState of the underlying socket. -/
structure WSState where
  ws : Option ReadyState
  sessionId : Option String
  reconnectAttempts : Nat
  maxReconnectAttempts : Nat
  reconnectDelay : Nat
  isConnecting : Bool
  autoReconnect : Bool
deriving DecidableEq, Repr

/-- The constructor of `WebSocketService`. -/
def initState : WSState :=
  { ws := none
    sessionId := none
    reconnectAttempts := 0
    maxReconnectAttempts := 5
    reconnectDelay := 1000
    isConnecting := false
    autoReconnect := true }

/-- `connect(sessionId)`.  The guard returns early when already connecting or
already open.  `freshId` stands for the generated
`session_<Date.now()>_<random>` string used when the argument is absent or
falsy (JavaScript `sessionId || generated`, so the empty string also falls
back to the generated id).  A new socket starts in the `connecting`
readyState. -/
def connect (st : WSState) (sessionId : Option String) (freshId : String) :
    WSState :=
  if st.isConnecting = true ∨ st.ws = some ReadyState.opened then st
  else
    { st with
        isConnecting := true
        sessionId := some (match sessionId with
          | some s => if s = "" then freshId else s
          | none => freshId)
        ws := some ReadyState.connecting }

/-- The `onopen` handler together with the platform moving the socket to the
open readyState: clears `isConnecting`, resets `reconnectAttempts` to 0 (the
handler also transmits a connection-announcement envelope, which no claim
inspects). -/
def openEvent (st : WSState) : WSState :=
  { st with
      ws := some ReadyState.opened
      isConnecting := false
      reconnectAttempts := 0 }

/-- `scheduleReconnect()`: increments the attempt counter and computes the
backoff delay `reconnectDelay * 2 ^ (attempts - 1)` of the timeout it
schedules.  Returns the new state and the scheduled delay in ms. -/
def scheduleReconnect (st : WSState) : WSState × Nat :=
  let attempts := st.reconnectAttempts + 1
  ({ st with reconnectAttempts := attempts },
   st.reconnectDelay * 2 ^ (attempts - 1))

/-- The `onclose` handler: clears `isConnecting` and, when auto-reconnect is
enabled and attempts remain below the cap, calls `scheduleReconnect`.
Returns the new state and the delay of the scheduled reconnect timeout, if
one was scheduled. -/
def onClose (st : WSState) : WSState × Option Nat :=
  let st1 := { st with isConnecting := false }
  if st1.autoReconnect = true ∧
      st1.reconnectAttempts < st1.maxReconnectAttempts then
    let r := scheduleReconnect st1
    (r.1, some r.2)
  else
    (st1, none)

/-- The body of the timeout scheduled by `scheduleReconnect`: calls
`connect(this.sessionId)` when auto-reconnect is still enabled and the socket
is not open. -/
def reconnectTimeoutFire (st : WSState) (freshId : String) : WSState :=
  if st.autoReconnect = true ∧ ¬ st.ws = some ReadyState.opened then
    connect st st.sessionId freshId
  else st

/-- `send(message)`: only when a socket exists and its readyState is open, a
timestamp and the session id are stamped onto the message (object spread with
override) and the envelope is transmitted.  Returns the (unchanged) service
state, the boolean success flag, and the transmitted envelope if any.  `now`
stands for `new Date().toISOString()`. -/
def send (st : WSState) (message : List (String × JValue)) (now : String) :
    WSState × Bool × Option (List (String × JValue)) :=
  if st.ws = some ReadyState.opened then
    let env := setField (setField message "timestamp" (JValue.str now))
      "session_id"
      (match st.sessionId with
        | some s => JValue.str s
        | none => JValue.jnull)
    (st, true, some env)
  else
    (st, false, none)

/-- `ping()`: `send(\x7b type: 'ping' \x7d)`. -/
def ping (st : WSState) (now : String) :
    WSState × Bool × Option (List (String × JValue)) :=
  send st [("type", JValue.str "ping")] now

/-- `disconnect()`: disables auto-reconnect, closes and drops the socket,
clears `isConnecting`. -/
def disconnect (st : WSState) : WSState :=
  { st with
      autoReconnect := false
      ws := none
      isConnecting := false }

/-- `setAutoReconnect(enabled)`. -/
def setAutoReconnect (st : WSState) (enabled : Bool) : WSState :=
  { st with autoReconnect := enabled }

/-- The events that can occur spontaneously (without a manual `connect` or
`setAutoReconnect` call): a socket close event, and the firing of a
previously scheduled reconnect timeout. -/
inductive WSEvent where
  | close
  | timeoutFire (freshId : String)
deriving DecidableEq, Repr

/-- State transition of a spontaneous event. -/
def step (st : WSState) : WSEvent → WSState
  | WSEvent.close => (onClose st).1
  | WSEvent.timeoutFire freshId => reconnectTimeoutFire st freshId

/-- Whether connect about to run would pass its guard and construct a new
WebSocket object. -/
def connectCreatesSocket (st : WSState) : Bool :=
  decide (¬ (st.isConnecting = true ∨ st.ws = some ReadyState.opened))

/-- Whether a spontaneous event initiates a new connection (constructs a new
WebSocket): a close event never does directly (it only schedules a timeout),
a firing reconnect timeout does exactly when its own guard and the guard
inside `connect` both pass. -/
def initiates (st : WSState) : WSEvent → Bool
  | WSEvent.close => false
  | WSEvent.timeoutFire _ =>
      decide (st.autoReconnect = true ∧ ¬ st.ws = some ReadyState.opened)
        && connectCreatesSocket st

/-- No event along the trace initiates a new connection. -/
def noInitiation : WSState → List WSEvent → Prop
  | _, [] => True
  | st, e :: es => initiates st e = false ∧ noInitiation (step st e) es

end WebSocketService

namespace VideoService

/-- The mutable settings fields of the `VideoService` class. -/
structure VideoState where
  frameRate : ℚ
  quality : ℚ
  width : ℚ
  height : ℚ
deriving DecidableEq, Repr

/-- The constructor of `VideoService`. -/
def initState : VideoState :=
  { frameRate := 30, quality := 0.8, width := 640, height := 480 }

/-- Argument object of `updateSettings`; `none` models an absent key. -/
structure Settings where
  frameRate : Option ℚ := none
  quality : Option ℚ := none
  width : Option ℚ := none
  height : Option ℚ := none
deriving DecidableEq, Repr

/-- `VideoService.updateSettings(settings)`.  Every field is guarded by a
JavaScript truthiness test `if (settings.field)`, so a present value of `0`
is ignored like an absent one.  Quality is clamped by
`Math.max(0.1, Math.min(1.0, x))`.  The canvas and frame-interval side
effects carry no settings state and are not modelled. -/
def updateSettings (st : VideoState) (s : Settings) : VideoState :=
  let st1 := match s.frameRate with
    | some x => if x ≠ 0 then { st with frameRate := x } else st
    | none => st
  let st2 := match s.quality with
    | some x => if x ≠ 0 then { st1 with quality := max 0.1 (min 1.0 x) }
                else st1
    | none => st1
  let st3 := match s.width with
    | some x => if x ≠ 0 then { st2 with width := x } else st2
    | none => st2
  match s.height with
    | some x => if x ≠ 0 then { st3 with height := x } else st3
    | none => st3

end VideoService

namespace AudioService

/-- The mutable fields of the `AudioService` class that the claims depend
on.  `noiseSuppression` is `Option Bool` because the buggy assignment in
`updateSettings` can store the JavaScript value `undefined` (modelled as
`none`) in it.  `onAudioDataSet` records whether an `onAudioData` callback
has been registered. -/
structure AudioState where
  sampleRate : ℚ
  channels : ℚ
  vadThreshold : ℚ
  echoCancellation : Bool
  noiseSuppression : Option Bool
  onAudioDataSet : Bool
deriving DecidableEq, Repr

/-- The constructor of `AudioService`. -/
def initState : AudioState :=
  { sampleRate := 24000
    channels := 1
    vadThreshold := 0.2
    echoCancellation := true
    noiseSuppression := some true
    onAudioDataSet := false }

/-- Argument object of `AudioService.updateSettings`; `none` models an
absent key.  The source reads both the snake_case key `noise_suppression`
(in the guard) and the camelCase key `noiseSuppression` (in the assignment),
so both appear here.  The inner `Option Bool` of the two suppression keys
distinguishes `undefined` from a boolean. -/
structure Settings where
  sample_rate : Option ℚ := none
  vad_threshold : Option ℚ := none
  echo_cancellation : Option Bool := none
  noise_suppression : Option Bool := none
  noiseSuppression : Option Bool := none
deriving DecidableEq, Repr

/-- `AudioService.updateSettings(settings)`.  `sample_rate` is guarded by a
truthiness test; the other three by `!== undefined` tests.  Note the last
branch: the guard tests `settings.noise_suppression` but the assignment
stores `settings.noiseSuppression` (the camelCase key), exactly as in the
source. -/
def updateSettings (st : AudioState) (s : Settings) : AudioState :=
  let st1 := match s.sample_rate with
    | some x => if x ≠ 0 then { st with sampleRate := x } else st
    | none => st
  let st2 := match s.vad_threshold with
    | some x => { st1 with vadThreshold := x }
    | none => st1
  let st3 := match s.echo_cancellation with
    | some b => { st2 with echoCancellation := b }
    | none => st2
  match s.noise_suppression with
    | some _ => { st3 with noiseSuppression := s.noiseSuppression }
    | none => st3

/-- Return object of `AudioService.getSettings()`. -/
structure SettingsOut where
  sample_rate : ℚ
  channels : ℚ
  vad_threshold : ℚ
  echo_cancellation : Bool
  noise_suppression : Option Bool
deriving DecidableEq, Repr

/-- `AudioService.getSettings()`. -/
def getSettings (st : AudioState) : SettingsOut :=
  { sample_rate := st.sampleRate
    channels := st.channels
    vad_threshold := st.vadThreshold
    echo_cancellation := st.echoCancellation
    noise_suppression := st.noiseSuppression }

/-- Root mean square of an audio buffer, as computed inside
`detectVoiceActivity`: `Math.sqrt(sum of squares / length)`.  Samples are
modelled as real numbers. -/
noncomputable def rms (audioData : List ℝ) : ℝ :=
  Real.sqrt ((audioData.map (fun x => x * x)).sum / (audioData.length : ℝ))

/-- `AudioService.detectVoiceActivity(audioData)`: the RMS of the buffer
exceeds the VAD threshold. -/
def detectVoiceActivity (audioData : List ℝ) (vadThreshold : ℝ) : Prop :=
  rms audioData > vadThreshold

/-- The condition under which `processAudioChunk` fires the `onAudioData`
callback for a decoded chunk: `detectVoiceActivity` holds and a callback is
registered. -/
def chunkCallbackFires (st : AudioState) (audioData : List ℝ) : Prop :=
  detectVoiceActivity audioData (st.vadThreshold : ℝ) ∧
    st.onAudioDataSet = true

end AudioService

namespace AppMute

/-- Combined client/server view for the mute feature of
`src/ui/src/App.js`.  `isMuted` is the client React state; `pending` is the
FIFO queue of mute commands sent but not yet answered (`true` = the `mute`
command, `false` = `unmute`); `acked` is the specification-side observer
"the last mute state acknowledged by the server": a success response to a
command acknowledges that command, a failure response leaves it unchanged. -/
structure MuteState where
  isMuted : Bool
  pending : List Bool
  acked : Bool
deriving DecidableEq, Repr

/-- Initial state: `useState(false)` and no acknowledged mute. -/
def initState : MuteState :=
  { isMuted := false, pending := [], acked := false }

/-- The events of the mute protocol: a user click on the mute button, and a
`mute_response`/`unmute_response` message (answering the oldest pending
command) with the given success status. -/
inductive MuteEvent where
  | toggle
  | respond (success : Bool)
deriving DecidableEq, Repr

/-- One step.  `toggle` is `App.toggleMute`: when muted it sends `unmute`
and sets `isMuted` to `false`, otherwise it sends `mute` and sets `isMuted`
to `true` — the flip happens before any server confirmation.  `respond s`
is `App.handleWebSocketMessage` on the response to the oldest pending
command: a failing `mute_response` runs `setIsMuted(false)`, a failing
`unmute_response` runs `setIsMuted(true)`, a success only logs (and, on the
spec side, updates `acked`).  A response with nothing pending is ignored. -/
def muteStep (st : MuteState) : MuteEvent → MuteState
  | MuteEvent.toggle =>
      if st.isMuted then
        { st with isMuted := false, pending := st.pending ++ [false] }
      else
        { st with isMuted := true, pending := st.pending ++ [true] }
  | MuteEvent.respond success =>
      match st.pending with
      | [] => st
      | cmd :: rest =>
          if cmd then
            if success then { st with pending := rest, acked := true }
            else { st with pending := rest, isMuted := false }
          else
            if success then { st with pending := rest, acked := false }
            else { st with pending := rest, isMuted := true }

/-- Run a sequence of events from the initial state. -/
def run (es : List MuteEvent) : MuteState :=
  es.foldl muteStep initState

/-- A quiescent point: every sent command has received its response. -/
def quiescent (st : MuteState) : Prop := st.pending = []

/-- Strict alternation: each toggle click is answered before the next
click.  `ss` lists the success status of each response. -/
def altRun (ss : List Bool) : MuteState :=
  ss.foldl
    (fun st s => muteStep (muteStep st MuteEvent.toggle) (MuteEvent.respond s))
    initState

end AppMute

namespace AppNotif

/-- A notification object built by `App.addNotification`
(src/unnamed/part_003): `id` is `Date.now()`, `timestamp` the `Date`
object (modelled by its tick). -/
structure Notification where
  id : ℤ
  message : String
  ntype : String
  timestamp : ℤ
deriving DecidableEq, Repr

/-- The JavaScript values compared by the strict inequality
`n !== id` inside `removeNotification`: a number or a notification
object.  Strict equality between values of different types is false; the
only comparison the code performs is object versus number, so modelling
object identity by structural equality is immaterial. -/
inductive JSVal where
  | vnum (n : ℤ)
  | vnotif (nt : Notification)
deriving DecidableEq, Repr

/-- JavaScript `a !== b` on these values. -/
def jsStrictNeq (a b : JSVal) : Bool := decide (a ≠ b)

/-- `App.removeNotification(id)`: `prev.filter(n => n !== id)`, comparing
each notification object `n` against the number `id`, exactly as in the
source. -/
def removeNotification (id : ℤ) (notifications : List Notification) :
    List Notification :=
  notifications.filter (fun n => jsStrictNeq (JSVal.vnotif n) (JSVal.vnum id))

/-- `App.addNotification(message, type, duration)`: non-error types return
at once; an error notification is appended and a removal timer
`setTimeout(() => removeNotification(id), duration)` is scheduled.  `nowId`
stands for `Date.now()` and `nowTs` for `new Date()`.  Returns the new
notification list and the list of scheduled removal timers
`(notification id, delay)`. -/
def addNotification (notifications : List Notification) (message : String)
    (ntype : String) (duration : ℤ) (nowId : ℤ) (nowTs : ℤ) :
    List Notification × List (ℤ × ℤ) :=
  if ntype ≠ "error" then (notifications, [])
  else
    (notifications ++
       [{ id := nowId, message := message, ntype := ntype,
          timestamp := nowTs }],
     [(nowId, duration)])

end AppNotif

section Theorems

open WebSocketService

/-- Every spontaneous event preserves the `autoReconnect` flag: only
`setAutoReconnect` (and the constructor) write it. -/
lemma step_preserves_autoReconnect (st : WSState) (e : WSEvent) :
    (WebSocketService.step st e).autoReconnect = st.autoReconnect := by
  cases e with
  | close =>
      simp only [WebSocketService.step, WebSocketService.onClose,
        WebSocketService.scheduleReconnect]
      split <;> rfl
  | timeoutFire freshId =>
      simp only [WebSocketService.step, WebSocketService.reconnectTimeoutFire,
        WebSocketService.connect]
      split
      · split <;> rfl
      · rfl

/-- With auto-reconnect disabled, no spontaneous event ever initiates a
connection, along any trace. -/
lemma autoReconnect_off_noInitiation (es : List WSEvent) :
    ∀ st : WSState, st.autoReconnect = false →
      WebSocketService.noInitiation st es := by
  induction es with
  | nil => intro st _; trivial
  | cons e es ih =>
      intro st h
      refine ⟨?_, ?_⟩
      · cases e with
        | close => rfl
        | timeoutFire freshId =>
            simp [WebSocketService.initiates, h]
      · exact ih _ (by rw [step_preserves_autoReconnect, h])

/-- C1: for every reconnect attempt n (1-indexed), `scheduleReconnect`
computes a delay of exactly `1000 * 2 ^ (n - 1)` ms; once
`reconnectAttempts` has reached the cap of 5, a socket close schedules no
further automatic reconnect; and `onclose` only ever schedules a reconnect
while the attempt counter is below the cap (so at most 5 automatic attempts
occur, until a successful `connect` resets the counter via the open
event). -/
theorem claim_C1 (st : WSState) (n : Nat) (_hn : 1 ≤ n)
    (hd : st.reconnectDelay = 1000) (ha : st.reconnectAttempts = n - 1) :
    (WebSocketService.scheduleReconnect st).2 = 1000 * 2 ^ (n - 1) ∧
    (st.maxReconnectAttempts = 5 → 5 ≤ st.reconnectAttempts →
      (WebSocketService.onClose st).2 = none) ∧
    (∀ st2 : WSState, ((WebSocketService.onClose st2).2).isSome = true →
      st2.reconnectAttempts < st2.maxReconnectAttempts) := by
  refine ⟨?_, ?_, ?_⟩
  · simp [WebSocketService.scheduleReconnect, hd, ha]
  · intro hm h5
    simp only [WebSocketService.onClose]
    split
    · next hcond =>
        exfalso
        have := hcond.2
        simp only [hm] at this
        omega
    · rfl
  · intro st2 h
    simp only [WebSocketService.onClose] at h
    split at h
    · next hcond => exact hcond.2
    · simp at h

/-- Witness for C1 at the freshly constructed service and n = 1: the first
scheduled reconnect waits 1000 ms. -/
theorem claim_C1_witness :
    (WebSocketService.scheduleReconnect WebSocketService.initState).2 =
      1000 * 2 ^ (1 - 1) :=
  (claim_C1 WebSocketService.initState 1 (by decide) rfl rfl).1

/-- C2: whenever the readyState of the socket is not open (including when no
socket exists), `send` returns false, transmits nothing and leaves the
service state unchanged; when the socket is open, `send` returns true and
the state is likewise unchanged. -/
theorem claim_C2 (st : WSState) (message : List (String × JValue))
    (now : String) (h : ¬ st.ws = some ReadyState.opened) :
    WebSocketService.send st message now = (st, false, none) ∧
    (∀ (st2 : WSState) (m2 : List (String × JValue)) (n2 : String),
      st2.ws = some ReadyState.opened →
      (WebSocketService.send st2 m2 n2).2.1 = true ∧
      (WebSocketService.send st2 m2 n2).1 = st2) := by
  constructor
  · simp [WebSocketService.send, h]
  · intro st2 m2 n2 h2
    constructor <;> simp [WebSocketService.send, h2]

/-- Witness for C2 on the freshly constructed service (no socket): sending
returns false and transmits nothing. -/
theorem claim_C2_witness :
    WebSocketService.send WebSocketService.initState [] "2024-01-01" =
      (WebSocketService.initState, false, none) :=
  (claim_C2 WebSocketService.initState [] "2024-01-01" (by decide)).1

/-- C6: after `connect("session_1")` and the open event, `ping()` transmits
exactly the three-field envelope with type `ping`, the timestamp string
produced by `toISOString` and session id `session_1` — `send` adds exactly
the timestamp and session id fields and nothing else. -/
theorem claim_C6 (freshId now : String) :
    WebSocketService.ping
      (WebSocketService.openEvent
        (WebSocketService.connect WebSocketService.initState
          (some "session_1") freshId)) now =
    (WebSocketService.openEvent
      (WebSocketService.connect WebSocketService.initState
        (some "session_1") freshId),
     true,
     some [("type", JValue.str "ping"), ("timestamp", JValue.str now),
           ("session_id", JValue.str "session_1")]) := by
  rfl

/-- C9: after `disconnect()` the `autoReconnect` flag is false, and along
any subsequent trace of socket-close events and firings of already-scheduled
reconnect timeouts, no new connection is ever initiated (the flag is only
ever re-enabled by `setAutoReconnect`, which is excluded from the trace, as
is a manual `connect`). -/
theorem claim_C9 (st : WSState) (es : List WSEvent) :
    (WebSocketService.disconnect st).autoReconnect = false ∧
    WebSocketService.noInitiation (WebSocketService.disconnect st) es :=
  ⟨rfl, autoReconnect_off_noInitiation es _ rfl⟩

end Theorems

section Theorems2

/-- C4 as stated is false: the quality update sits behind a JavaScript
truthiness guard, so `updateSettings(\x7bquality: 0\x7d)` is a no-op and the
stored quality stays at its previous value 0.8 instead of the clamp value
`max(0.1, min(1.0, 0)) = 0.1`. -/
theorem claim_C4_counterexample :
    VideoService.updateSettings VideoService.initState { quality := some 0 } =
      VideoService.initState ∧
    ¬ VideoService.initState.quality = max 0.1 (min 1.0 (0 : ℚ)) := by
  constructor
  · rfl
  · norm_num [VideoService.initState]

/-- C4 (amended): for every nonzero numeric x,
`updateSettings(\x7bquality: x\x7d)` stores `max(0.1, min(1.0, x))`; for
x = 0 the truthiness guard skips the update and the quality is unchanged. -/
theorem claim_C4 (st : VideoService.VideoState) (x : ℚ) (hx : x ≠ 0) :
    (VideoService.updateSettings st { quality := some x }).quality =
      max 0.1 (min 1.0 x) ∧
    (VideoService.updateSettings st { quality := some 0 }).quality =
      st.quality := by
  constructor
  · simp [VideoService.updateSettings, hx]
  · simp [VideoService.updateSettings]

/-- Witness for C4 at x = 1/2 on the freshly constructed service. -/
theorem claim_C4_witness :
    (VideoService.updateSettings VideoService.initState
        { quality := some (1 / 2) }).quality =
      max 0.1 (min 1.0 ((1 : ℚ) / 2)) :=
  (claim_C4 VideoService.initState (1 / 2) (by norm_num)).1

/-- C8: evaluation of the code at the failing input.  On a freshly
constructed service, `updateSettings(\x7bnoise_suppression: false\x7d)`
stores the value of the absent camelCase key `settings.noiseSuppression`,
i.e. `undefined` (modelled `none`), so the following `getSettings()` does
not return the supplied `false`: the round-trip claimed for every field
fails for `noise_suppression`. -/
theorem claim_C8 :
    (AudioService.getSettings
        (AudioService.updateSettings AudioService.initState
          { noise_suppression := some false })).noise_suppression = none ∧
    ¬ ((none : Option Bool) = some false) :=
  ⟨rfl, by decide⟩

/-- C5: the per-chunk callback fires only when the RMS of the chunk exceeds
the VAD threshold; on an all-zero buffer with positive threshold,
`detectVoiceActivity` is false and the `onAudioData` callback does not
fire. -/
theorem claim_C5 (st : AudioService.AudioState) (buf : List ℝ)
    (hz : ∀ x ∈ buf, x = 0) (ht : 0 < st.vadThreshold) :
    ¬ AudioService.detectVoiceActivity buf (st.vadThreshold : ℝ) ∧
    ¬ AudioService.chunkCallbackFires st buf ∧
    ∀ d : List ℝ, AudioService.chunkCallbackFires st d →
      AudioService.detectVoiceActivity d (st.vadThreshold : ℝ) := by
  have hsum : (buf.map (fun x => x * x)).sum = 0 := by
    apply List.sum_eq_zero
    intro y hy
    obtain ⟨x, hx, rfl⟩ := List.mem_map.mp hy
    rw [hz x hx]
    ring
  have hrms : AudioService.rms buf = 0 := by
    rw [AudioService.rms, hsum]
    simp
  have hdet : ¬ AudioService.detectVoiceActivity buf (st.vadThreshold : ℝ) := by
    rw [AudioService.detectVoiceActivity, hrms]
    have htR : (0 : ℝ) < (st.vadThreshold : ℝ) := by exact_mod_cast ht
    simp only [gt_iff_lt, not_lt]
    exact le_of_lt htR
  refine ⟨hdet, ?_, ?_⟩
  · intro hc
    exact hdet hc.1
  · intro d hd
    exact hd.1

/-- Witness for C5: the all-zero three-sample buffer and the default
threshold 0.2 of a freshly constructed service trigger no voice-activity
detection. -/
theorem claim_C5_witness :
    ¬ AudioService.detectVoiceActivity [0, 0, 0]
        ((AudioService.initState.vadThreshold : ℚ) : ℝ) :=
  (claim_C5 AudioService.initState [0, 0, 0] (by simp)
    (by norm_num [AudioService.initState])).1

/-- The alternation invariant for the mute protocol: starting from an empty
pending queue with the displayed state equal to the acknowledged state, any
run of toggle-then-response rounds keeps the queue empty at each round
boundary and re-establishes displayed = acknowledged. -/
lemma altRun_inv (ss : List Bool) :
    ∀ st : AppMute.MuteState, st.pending = [] → st.isMuted = st.acked →
      (ss.foldl
          (fun st s =>
            AppMute.muteStep (AppMute.muteStep st AppMute.MuteEvent.toggle)
              (AppMute.MuteEvent.respond s)) st).pending = [] ∧
      (ss.foldl
          (fun st s =>
            AppMute.muteStep (AppMute.muteStep st AppMute.MuteEvent.toggle)
              (AppMute.MuteEvent.respond s)) st).isMuted =
      (ss.foldl
          (fun st s =>
            AppMute.muteStep (AppMute.muteStep st AppMute.MuteEvent.toggle)
              (AppMute.MuteEvent.respond s)) st).acked := by
  induction ss with
  | nil =>
      intro st h1 h2
      exact ⟨h1, h2⟩
  | cons s ss ih =>
      intro st h1 h2
      rcases st with ⟨m, p, a⟩
      simp only at h1 h2
      subst h1
      subst h2
      simp only [List.foldl_cons]
      refine ih _ ?_ ?_ <;> (cases m <;> cases s <;> rfl)

/-- C3 (amended): `toggleMute` flips the displayed mute state immediately
(before any confirmation); a non-success `mute_response` forces the
displayed state to unmuted and a non-success `unmute_response` forces it to
muted; and when each click receives its response before the next click
(strict alternation), at every quiescent point the displayed state equals
the last server-acknowledged state.  (With overlapping clicks the quiescent
equality can fail; see the counterexample.) -/
theorem claim_C3 :
    (∀ st : AppMute.MuteState,
        (AppMute.muteStep st AppMute.MuteEvent.toggle).isMuted =
          !st.isMuted) ∧
    (∀ (m a : Bool) (rest : List Bool),
        (AppMute.muteStep ⟨m, true :: rest, a⟩
            (AppMute.MuteEvent.respond false)).isMuted = false ∧
        (AppMute.muteStep ⟨m, false :: rest, a⟩
            (AppMute.MuteEvent.respond false)).isMuted = true) ∧
    (∀ ss : List Bool,
        AppMute.quiescent (AppMute.altRun ss) ∧
        (AppMute.altRun ss).isMuted = (AppMute.altRun ss).acked) := by
  refine ⟨?_, ?_, ?_⟩
  · intro st
    cases h : st.isMuted <;> simp [AppMute.muteStep, h]
  · intro m a rest
    constructor <;> simp [AppMute.muteStep]
  · intro ss
    exact altRun_inv ss AppMute.initState rfl rfl

/-- C3 as stated is false: two rapid clicks (mute then unmute sent) followed
by two failure responses leave the client displaying muted at a quiescent
point while the server never acknowledged any mute — the two blind reverts
overshoot. -/
theorem claim_C3_counterexample :
    AppMute.quiescent
      (AppMute.run [AppMute.MuteEvent.toggle, AppMute.MuteEvent.toggle,
        AppMute.MuteEvent.respond false, AppMute.MuteEvent.respond false]) ∧
    ¬ ((AppMute.run [AppMute.MuteEvent.toggle, AppMute.MuteEvent.toggle,
          AppMute.MuteEvent.respond false,
          AppMute.MuteEvent.respond false]).isMuted =
        (AppMute.run [AppMute.MuteEvent.toggle, AppMute.MuteEvent.toggle,
          AppMute.MuteEvent.respond false,
          AppMute.MuteEvent.respond false]).acked) :=
  ⟨rfl, by decide⟩

/-- C7: evaluation of the code at the failing input, and in general.  The
filter predicate `n !== id` compares a notification object against a
number, which is always true, so `removeNotification` removes nothing: the
notification with the given id is still in the list afterwards, for this
concrete input and for every input. -/
theorem claim_C7 :
    AppNotif.removeNotification 5
        [{ id := 5, message := "boom", ntype := "error", timestamp := 0 }] =
      [{ id := 5, message := "boom", ntype := "error", timestamp := 0 }] ∧
    ∀ (id : ℤ) (l : List AppNotif.Notification),
      AppNotif.removeNotification id l = l := by
  constructor
  · rfl
  · intro id l
    apply List.filter_eq_self.mpr
    intro n _
    simp [AppNotif.jsStrictNeq]

/-- C10: for every non-error type, `addNotification` returns without
modifying the notification list and without scheduling a removal timer. -/
theorem claim_C10 (notifications : List AppNotif.Notification)
    (message ntype : String) (duration nowId nowTs : ℤ)
    (h : ntype ≠ "error") :
    AppNotif.addNotification notifications message ntype duration nowId
      nowTs = (notifications, []) := by
  simp [AppNotif.addNotification, h]

/-- Witness for C10: an info notification is dropped. -/
theorem claim_C10_witness :
    AppNotif.addNotification [] "hello" "info" 8000 1 0 = ([], []) :=
  claim_C10 [] "hello" "info" 8000 1 0 (by decide)

end Theorems2
